import Mathlib

/-!
Verification of the "Within" style expression
(src/mbgl/style/expression/within.cpp): the winding classifier, the
point-in-polygon engine, the geometry adapter and the expression node's
parse / evaluate / serialize contract.  Double-precision coordinates are
embedded as exact rationals; machine `size_t` arithmetic is modelled as
natural numbers with explicit reduction modulo 2^64 where underflow
matters.
-/

namespace Within.Model

/-- A planar point, `mbgl::Point<double>`, with coordinates embedded as
rationals. -/
structure Point where
  x : ℚ
  y : ℚ
deriving DecidableEq, Repr

/-- The winding classifier `isLeft` from within.cpp:
`(P1.x - P0.x) * (P2.y - P0.y) - (P2.x - P0.x) * (P1.y - P0.y)`. -/
def isLeft (P0 P1 P2 : Point) : ℚ :=
  (P1.x - P0.x) * (P2.y - P0.y) - (P2.x - P0.x) * (P1.y - P0.y)

/-- One iteration of the edge loop body of `pointWithinPolygons`: the nested
conditionals updating the winding number `wn` for the edge from `p0` to
`p1`. -/
def edgeCross (point p0 p1 : Point) (wn : Int) : Int :=
  if p0.y ≤ point.y then
    if p1.y > point.y then
      if isLeft p0 p1 point > 0 then wn + 1 else wn
    else wn
  else
    if p1.y ≤ point.y then
      if isLeft p0 p1 point < 0 then wn - 1 else wn
    else wn

/-- The inner edge loop of `pointWithinPolygons` over one ring: for
`i = 0 .. size-2` it updates `wn` with the edge `(poly[i], poly[i+1])`.
The structural recursion over consecutive pairs matches the indexed C++
loop for every ring with at least one point (for an empty ring the C++
loop bound underflows; see `ringLoopBound` below). -/
def ringWinding (point : Point) (wn : Int) : List Point → Int
  | [] => wn
  | [_] => wn
  | p0 :: p1 :: rest => ringWinding point (edgeCross point p0 p1 wn) (p1 :: rest)

/-- The outer ring loop of `pointWithinPolygons`, threading the winding
number `wn` through the rings and returning `true` as soon as `wn` is
non-zero after a ring; at the end it returns `wn != 0`. -/
def pwpLoop (point : Point) : Int → List (List Point) → Bool
  | wn, [] => wn != 0
  | wn, ring :: rest =>
    let wn2 := ringWinding point wn ring
    if wn2 != 0 then true else pwpLoop point wn2 rest

/-- `pointWithinPolygons` from within.cpp: winding-number containment of a
point in a polygon given as a list of rings, starting from `wn = 0`. -/
def pointWithinPolygons (point : Point) (polys : List (List Point)) : Bool :=
  pwpLoop point 0 polys

/-- Subtraction of one in `size_t` (64-bit unsigned) arithmetic:
`n - 1` computed as `(n + 2^64 - 1) % 2^64`. -/
def sizeTSubOne (n : Nat) : Nat :=
  (n + (2 ^ 64 - 1)) % 2 ^ 64

/-- The C++ edge loop bound `size - 1` of `pointWithinPolygons`, computed
in `size_t` arithmetic. -/
def ringLoopBound (size : Nat) : Nat :=
  sizeTSubOne size

/-- The edge loop of `pointWithinPolygons` indexes `poly[i]` and
`poly[i+1]` for every `i` below `ringLoopBound size`; the accesses stay in
bounds exactly when `i + 1 < size` at each such `i`. -/
def ringLoopInBounds (size : Nat) : Prop :=
  ∀ i, i < ringLoopBound size → i + 1 < size

instance (size : Nat) : Decidable (ringLoopInBounds size) := by
  unfold ringLoopInBounds
  infer_instance

/-- Claim-side contribution of a single edge to the winding number, read
off the spec's crossing rules: `+1` for an upward crossing
(`poly[i].y <= point.y` and `poly[i+1].y > point.y`) with the point
strictly left (`isLeft > 0`), `-1` for a downward crossing
(`poly[i].y > point.y` and `poly[i+1].y <= point.y`) with the point
strictly right (`isLeft < 0`), `0` otherwise. -/
def edgeContrib (point p0 p1 : Point) : Int :=
  (if p0.y ≤ point.y ∧ p1.y > point.y ∧ isLeft p0 p1 point > 0 then 1 else 0)
    + (if p0.y > point.y ∧ p1.y ≤ point.y ∧ isLeft p0 p1 point < 0 then -1 else 0)

/-- The consecutive edges `(poly[i], poly[i+1])` of a ring. -/
def ringEdges : List Point → List (Point × Point)
  | [] => []
  | [_] => []
  | p0 :: p1 :: rest => (p0, p1) :: ringEdges (p1 :: rest)

/-- Declarative winding number of a ring around a point: the sum of the
per-edge contributions. -/
def windingNumber (point : Point) (ring : List Point) : Int :=
  ((ringEdges ring).map (fun e => edgeContrib point e.1 e.2)).sum

theorem edgeCross_eq (point p0 p1 : Point) (wn : Int) :
    edgeCross point p0 p1 wn = wn + edgeContrib point p0 p1 := by
  unfold edgeCross edgeContrib
  by_cases hA : p0.y ≤ point.y
  · by_cases hB : p1.y > point.y
    · by_cases hC : isLeft p0 p1 point > 0
      · rw [if_pos hA, if_pos hB, if_pos hC, if_pos ⟨hA, hB, hC⟩,
            if_neg (fun hc => absurd hA (not_le.mpr hc.1))]
        ring
      · rw [if_pos hA, if_pos hB, if_neg hC, if_neg (fun hc => hC hc.2.2),
            if_neg (fun hc => absurd hA (not_le.mpr hc.1))]
        ring
    · rw [if_pos hA, if_neg hB, if_neg (fun hc => hB hc.2.1),
          if_neg (fun hc => absurd hA (not_le.mpr hc.1))]
      ring
  · by_cases hB : p1.y ≤ point.y
    · by_cases hC : isLeft p0 p1 point < 0
      · rw [if_neg hA, if_pos hB, if_pos hC, if_neg (fun hc => hA hc.1),
            if_pos ⟨not_le.mp hA, hB, hC⟩]
        ring
      · rw [if_neg hA, if_pos hB, if_neg hC, if_neg (fun hc => hA hc.1),
            if_neg (fun hc => hC hc.2.2)]
        ring
    · rw [if_neg hA, if_neg hB, if_neg (fun hc => hA hc.1),
          if_neg (fun hc => hB hc.2.1)]
      ring

theorem ringWinding_eq (point : Point) (ring : List Point) :
    ∀ wn : Int, ringWinding point wn ring = wn + windingNumber point ring := by
  induction ring with
  | nil => intro wn; simp [ringWinding, windingNumber, ringEdges]
  | cons p0 rest ih =>
    intro wn
    cases rest with
    | nil => simp [ringWinding, windingNumber, ringEdges]
    | cons p1 rest' =>
      show ringWinding point (edgeCross point p0 p1 wn) (p1 :: rest') = _
      rw [ih (edgeCross point p0 p1 wn), edgeCross_eq]
      simp [windingNumber, ringEdges]
      ring

theorem pwpLoop_eq_any (point : Point) (polys : List (List Point)) :
    pwpLoop point 0 polys = polys.any (fun r => windingNumber point r != 0) := by
  induction polys with
  | nil => rfl
  | cons ring rest ih =>
    show (let wn2 := ringWinding point 0 ring
          if wn2 != 0 then true else pwpLoop point wn2 rest) = _
    rw [ringWinding_eq point ring 0]
    simp only [List.any_cons, Int.zero_add]
    by_cases h : windingNumber point ring = 0
    · simp [h, ih]
    · simp [h]

/-- C1: the point-in-polygon engine computes, per ring, exactly the winding
number given by the claim's crossing rules (increment on an upward crossing
with `isLeft > 0`, decrement on a downward crossing with `isLeft < 0`, over
edges `(i, i+1)` for `i` in `[0, size-2]`), returns `true` exactly when some
ring accumulates a non-zero winding number (short-circuiting at the first
such ring), and returns `false` when every ring's winding number is zero. -/
theorem c1_point_in_polygon_winding (point : Point) (polys : List (List Point)) :
    (∀ (wn : Int) (ring : List Point),
        ringWinding point wn ring = wn + windingNumber point ring) ∧
    (pointWithinPolygons point polys = true ↔
      ∃ r ∈ polys, windingNumber point r ≠ 0) ∧
    ((∀ r ∈ polys, windingNumber point r = 0) →
      pointWithinPolygons point polys = false) := by
  refine ⟨fun wn ring => ringWinding_eq point ring wn, ?_, ?_⟩
  · rw [pointWithinPolygons, pwpLoop_eq_any]
    simp [List.any_eq_true]
  · intro h
    rw [pointWithinPolygons, pwpLoop_eq_any]
    simp only [List.any_eq_false]
    intro r hr
    simp [h r hr]

/-- Witness for C1 at the spec's example: the unit-square ring with the
outside test point `(5,5)` yields `false`. -/
theorem c1_point_in_polygon_winding_witness :
    pointWithinPolygons ⟨5, 5⟩ [[⟨0, 0⟩, ⟨4, 0⟩, ⟨4, 4⟩, ⟨0, 4⟩, ⟨0, 0⟩]] = false :=
  (c1_point_in_polygon_winding ⟨5, 5⟩ [[⟨0, 0⟩, ⟨4, 0⟩, ⟨4, 4⟩, ⟨0, 4⟩, ⟨0, 0⟩]]).2.2
    (by
      intro r hr
      simp only [List.mem_singleton] at hr
      subst hr
      norm_num [windingNumber, ringEdges, edgeContrib, isLeft])

/-- C2: for a one-point ring the edge loop bound `size - 1` is `0`, so the
loop performs zero iterations and never indexes the ring; but for an empty
ring the `size_t` expression `size - 1` underflows to `2^64 - 1`, so the
loop does iterate and its very first iteration reads `poly[0]` and
`poly[1]` out of bounds — the code contradicts the claim at `size = 0`. -/
theorem c2_empty_ring_out_of_bounds :
    ringLoopBound 1 = 0 ∧ ringLoopInBounds 1 ∧
    ringLoopBound 0 = 2 ^ 64 - 1 ∧ ¬ ringLoopInBounds 0 := by
  refine ⟨by norm_num [ringLoopBound, sizeTSubOne], ?_,
    by norm_num [ringLoopBound, sizeTSubOne], ?_⟩
  · intro i hi
    norm_num [ringLoopBound, sizeTSubOne] at hi
  · intro h
    have h0 := h 0 (by norm_num [ringLoopBound, sizeTSubOne])
    omega

/-- C9: the winding classifier is antisymmetric in its first two
arguments: `isLeft P0 P1 P2 = - isLeft P1 P0 P2`. -/
theorem c9_isLeft_antisymmetric (P0 P1 P2 : Point) :
    isLeft P0 P1 P2 = - isLeft P1 P0 P2 := by
  unfold isLeft
  ring

/-- The tagged geometry variant `mapbox::geometry::geometry<double>`:
point, multi-point, line-string, multi-line-string, polygon,
multi-polygon, geometry collection. -/
inductive Geometry where
  | point (p : Point)
  | multiPoint (ps : List Point)
  | lineString (ps : List Point)
  | multiLineString (ls : List (List Point))
  | polygon (rings : List (List Point))
  | multiPolygon (ps : List (List (List Point)))
  | geometryCollection

/-- The `mbgl::GeoJSON` variant: a geometry, a feature, or a feature
collection. -/
inductive GeoJSON where
  | geometry (g : Geometry)
  | feature (g : Geometry)
  | featureCollection

/-- The multi-point loop of `pointsWithinPolygons`: `result` starts
`false`; each point overwrites `result` with its own containment test and
the loop returns `result` (i.e. `false`) as soon as a point tests
outside. -/
def multiPointLoop (polygons : List (List Point)) : Bool → List Point → Bool
  | result, [] => result
  | _, p :: rest =>
    let result := pointWithinPolygons p polygons
    if !result then result else multiPointLoop polygons result rest

/-- `pointsWithinPolygons` from within.cpp, the geometry adapter: matches
the stored GeoJSON down to a polygon geometry and dispatches on the
feature's converted geometry (the result of the external
`convertGeometry(feature, canonical)` is passed in directly); a single
point delegates to the engine, a multi-point runs the all-must-match
loop, and every other variant yields `false`. -/
def pointsWithinPolygons (featureGeometry : Geometry) (geoJson : GeoJSON) : Bool :=
  match geoJson with
  | .geometry geometrySet =>
    match geometrySet with
    | .polygon polygons =>
      match featureGeometry with
      | .point p => pointWithinPolygons p polygons
      | .multiPoint ps => multiPointLoop polygons false ps
      | _ => false
    | _ => false
  | _ => false

theorem multiPointLoop_true (polygons : List (List Point)) (qs : List Point) :
    multiPointLoop polygons true qs =
      qs.all (fun q => pointWithinPolygons q polygons) := by
  induction qs with
  | nil => rfl
  | cons q qs ih =>
    show (let result := pointWithinPolygons q polygons
          if !result then result else multiPointLoop polygons result qs) = _
    by_cases h : pointWithinPolygons q polygons
    · simp [h, ih]
    · simp [h]

/-- C3: on a multi-point feature the adapter returns the conjunction of
the per-point containment tests (short-circuiting at the first point
found outside), and on an empty multi-point collection it returns
`false`. -/
theorem c3_multipoint_conjunction (polygons : List (List Point)) (points : List Point) :
    pointsWithinPolygons (.multiPoint points) (.geometry (.polygon polygons)) =
      (!points.isEmpty && points.all (fun q => pointWithinPolygons q polygons)) ∧
    pointsWithinPolygons (.multiPoint []) (.geometry (.polygon polygons)) = false := by
  refine ⟨?_, rfl⟩
  cases points with
  | nil => rfl
  | cons q qs =>
    show (let result := pointWithinPolygons q polygons
          if !result then result else multiPointLoop polygons result qs) = _
    by_cases h : pointWithinPolygons q polygons
    · simp [h, multiPointLoop_true]
    · simp [h]

/-- The feature-type enum `mbgl::FeatureType` as queried by `getType()`. -/
inductive FeatureType where
  | unknown
  | point
  | lineString
  | polygon
deriving DecidableEq

/-- A feature handle: only its geometry type is inspected by
`Within::evaluate`; its geometry itself enters through the external
`convertGeometry` function. -/
structure GeometryTileFeature where
  typ : FeatureType

/-- A canonical tile identifier `mbgl::CanonicalTileID` (z/x/y). -/
structure CanonicalTileID where
  z : Nat
  x : Nat
  y : Nat

/-- The evaluation context: an optional feature and an optional canonical
tile id, the two members `Within::evaluate` reads. -/
structure EvaluationContext where
  feature : Option GeometryTileFeature
  canonical : Option CanonicalTileID

/-- The warning logged by `Within::evaluate` for non-Point feature
geometry. -/
def warningMessage : String :=
  "Within expression currently only support \x27Point\x27 geometry type"

/-- The `Within` expression node: owns the GeoJSON source parsed from the
configuration value. -/
structure Within where
  geoJSONSource : GeoJSON

/-- `Within::evaluate` from within.cpp. The external
`convertGeometry(feature, canonical)` is a parameter; the second
component of the result collects the warnings logged during the call. -/
def Within.evaluate (convertGeometry : GeometryTileFeature → CanonicalTileID → Geometry)
    (node : Within) (params : EvaluationContext) : Bool × List String :=
  match params.feature, params.canonical with
  | some feature, some canonical =>
    if feature.typ = FeatureType.point then
      (pointsWithinPolygons (convertGeometry feature canonical) node.geoJSONSource, [])
    else
      (false, [warningMessage])
  | _, _ => (false, [])

/-- C4: `Within::evaluate` is total (always yields a boolean, never an
exception): an absent feature or tile id yields `false` with no log
output; a Point-typed feature delegates to the geometry adapter with the
converted feature geometry and the stored GeoJSON; any other feature type
yields `false` with exactly one warning. -/
theorem c4_evaluate_total (convertGeometry : GeometryTileFeature → CanonicalTileID → Geometry)
    (node : Within) (f : GeometryTileFeature) (c : CanonicalTileID) :
    Within.evaluate convertGeometry node ⟨none, some c⟩ = (false, []) ∧
    Within.evaluate convertGeometry node ⟨some f, none⟩ = (false, []) ∧
    Within.evaluate convertGeometry node ⟨none, none⟩ = (false, []) ∧
    (f.typ = FeatureType.point →
      Within.evaluate convertGeometry node ⟨some f, some c⟩ =
        (pointsWithinPolygons (convertGeometry f c) node.geoJSONSource, [])) ∧
    (f.typ ≠ FeatureType.point →
      Within.evaluate convertGeometry node ⟨some f, some c⟩ = (false, [warningMessage])) := by
  refine ⟨rfl, rfl, rfl, ?_, ?_⟩
  · intro h
    simp [Within.evaluate, h]
  · intro h
    simp [Within.evaluate, h]

/-- Witness for C4: a LineString feature with a present tile id evaluates
to `false` with exactly one warning. -/
theorem c4_evaluate_total_witness :
    Within.evaluate (fun _ _ => Geometry.geometryCollection) ⟨GeoJSON.featureCollection⟩
      ⟨some ⟨FeatureType.lineString⟩, some ⟨0, 0, 0⟩⟩ = (false, [warningMessage]) :=
  (c4_evaluate_total (fun _ _ => Geometry.geometryCollection) ⟨GeoJSON.featureCollection⟩
    ⟨FeatureType.lineString⟩ ⟨0, 0, 0⟩).2.2.2.2 (by decide)

/-- The `mbgl::style::conversion::Convertible` configuration-value
abstraction, restricted to the shapes `Within::parse` inspects: arrays,
objects with named members, strings, and anything else. -/
inductive Convertible where
  | array (xs : List Convertible)
  | object (members : List (String × Convertible))
  | str (s : String)
  | scalar

/-- The `isArray` accessor on a convertible value. -/
def isArray : Convertible → Bool
  | .array _ => true
  | _ => false

/-- The `arrayLength` accessor on a convertible value. -/
def arrayLength : Convertible → Nat
  | .array xs => xs.length
  | _ => 0

/-- The `arrayMember` accessor on a convertible value (only invoked by the
source within bounds). -/
def arrayMember (v : Convertible) (i : Nat) : Convertible :=
  match v with
  | .array xs => xs.getD i Convertible.scalar
  | _ => Convertible.scalar

/-- The `isObject` accessor on a convertible value. -/
def isObject : Convertible → Bool
  | .object _ => true
  | _ => false

/-- The `objectMember` accessor on a convertible value: the first member
with the given name, if any. -/
def objectMember (v : Convertible) (key : String) : Option Convertible :=
  match v with
  | .object members => (members.find? (fun m => m.1 == key)).map Prod.snd
  | _ => none

/-- The `toString` accessor on a convertible value: defined exactly on
strings. -/
def toString : Convertible → Option String
  | .str s => some s
  | _ => none

/-- The fixed schema error message of `parseValue`. -/
def schemaErrorMessage : String :=
  "\x27Within\x27 expression requires valid geojson source that contains polygon geometry type."

/-- `parseValue` from within.cpp. The external GeoJSON converter
`toGeoJSON(value, error)` is a parameter returning the optional converted
value together with the error out-parameter's message (empty when no
error was recorded).  The second component of the result lists the
messages reported to the parsing context, in order; note that on a failed
conversion the C++ control flow falls through and reports the fixed
schema message in addition to the converter's message. -/
def parseValue (toGeoJSON : Convertible → Option GeoJSON × String)
    (value : Convertible) : Option GeoJSON × List String :=
  match value with
  | Convertible.object members =>
    match objectMember (Convertible.object members) "type" with
    | some geometryType =>
      match toString geometryType with
      | some ty =>
        if ty = "Polygon" then
          match toGeoJSON (Convertible.object members) with
          | (some geojson, emsg) =>
            if emsg = "" then (some geojson, [])
            else (none, [emsg, schemaErrorMessage])
          | (none, emsg) => (none, [emsg, schemaErrorMessage])
        else (none, [schemaErrorMessage])
      | none => (none, [schemaErrorMessage])
    | none => (none, [schemaErrorMessage])
  | _ => (none, [schemaErrorMessage])

/-- The arity error message of `Within::parse` for an array of length
`len`: the reported count is `arrayLength(value) - 1` computed in
`size_t` arithmetic. -/
def arityMessage (len : Nat) : String :=
  "\x27Within\x27 expression requires exactly one argument, but found "
    ++ Nat.repr (sizeTSubOne len) ++ " instead."

/-- `Within::parse` from within.cpp: requires an array of length exactly
2, parses its second member through `parseValue`, and on success returns
a node owning the converted GeoJSON.  The second component lists the
messages reported to the parsing context. -/
def Within.parse (toGeoJSON : Convertible → Option GeoJSON × String)
    (value : Convertible) : Option Within × List String :=
  if isArray value then
    if arrayLength value ≠ 2 then
      (none, [arityMessage (arrayLength value)])
    else
      match parseValue toGeoJSON (arrayMember value 1) with
      | (some parsedValue, errs) => (some ⟨parsedValue⟩, errs)
      | (none, errs) => (none, errs)
  else (none, [])

/-- Modelled from the spec: the operator-tag returned by `getOperator()`,
declared in within.hpp which is not among the sources here; the spec's
Serialize contract produces `[operator-tag, stringified-geojson]`. -/
def getOperator : String := "within"

/-- `Within::serialize` from within.cpp: the two-element value list
`[getOperator(), stringify(geoJSONSource)]`, with the external
`mapbox::geojson::stringify` (a textual GeoJSON encoder) as a
parameter.  Both elements are strings. -/
def Within.serialize (stringify : GeoJSON → String) (node : Within) : Convertible :=
  .array [.str getOperator, .str (stringify node.geoJSONSource)]

/-- A convertible value is polygon-typed when it is an object whose
`"type"` member is the string `"Polygon"` — the gate `parseValue` checks
before invoking the GeoJSON converter. -/
def polygonTyped (v : Convertible) : Prop :=
  isObject v = true ∧ ∃ ty, objectMember v "type" = some ty ∧ toString ty = some "Polygon"

theorem parseValue_not_polygon (toGeoJSON : Convertible → Option GeoJSON × String)
    (v : Convertible) (hnp : ¬ polygonTyped v) :
    parseValue toGeoJSON v = (none, [schemaErrorMessage]) := by
  unfold parseValue
  cases v with
  | object members =>
    cases hm : objectMember (Convertible.object members) "type" with
    | none => simp [hm]
    | some geometryType =>
      cases ht : toString geometryType with
      | none => simp [hm, ht]
      | some ty =>
        have hne : ty ≠ "Polygon" := by
          intro he
          exact hnp ⟨rfl, geometryType, hm, he ▸ ht⟩
        simp [hm, ht, hne]
  | array xs => rfl
  | str s => rfl
  | scalar => rfl

theorem parseValue_polygon_success (toGeoJSON : Convertible → Option GeoJSON × String)
    (v : Convertible) (gj : GeoJSON)
    (hp : polygonTyped v) (hconv : toGeoJSON v = (some gj, "")) :
    parseValue toGeoJSON v = (some gj, []) := by
  obtain ⟨hobj, ty, hm, ht⟩ := hp
  cases v with
  | object members =>
    unfold parseValue
    simp [hm, ht, hconv]
  | array xs => simp [isObject] at hobj
  | str s => simp [isObject] at hobj
  | scalar => simp [isObject] at hobj

theorem parseValue_polygon_failure (toGeoJSON : Convertible → Option GeoJSON × String)
    (v : Convertible) (gjq : Option GeoJSON) (emsg : String)
    (hp : polygonTyped v) (hconv : toGeoJSON v = (gjq, emsg))
    (hfail : gjq = none ∨ emsg ≠ "") :
    parseValue toGeoJSON v = (none, [emsg, schemaErrorMessage]) := by
  obtain ⟨hobj, ty, hm, ht⟩ := hp
  cases v with
  | object members =>
    unfold parseValue
    cases gjq with
    | none => simp [hm, ht, hconv]
    | some g =>
      have he : emsg ≠ "" := by
        rcases hfail with hf | hf
        · exact absurd hf (by simp)
        · exact hf
      simp [hm, ht, hconv, he]
  | array xs => simp [isObject] at hobj
  | str s => simp [isObject] at hobj
  | scalar => simp [isObject] at hobj

theorem parseValue_none_reports (toGeoJSON : Convertible → Option GeoJSON × String)
    (v : Convertible) (errs : List String)
    (h : parseValue toGeoJSON v = (none, errs)) : errs ≠ [] := by
  by_cases hp : polygonTyped v
  · rcases hgj : toGeoJSON v with ⟨gjq, emsg⟩
    cases gjq with
    | some gj =>
      by_cases he : emsg = ""
      · subst he
        rw [parseValue_polygon_success toGeoJSON v gj hp hgj] at h
        simp at h
      · rw [parseValue_polygon_failure toGeoJSON v (some gj) emsg hp hgj (Or.inr he)] at h
        cases h
        simp
    | none =>
      rw [parseValue_polygon_failure toGeoJSON v none emsg hp hgj (Or.inl rfl)] at h
      cases h
      simp
  · rw [parseValue_not_polygon toGeoJSON v hp] at h
    cases h
    simp

/-- C5: for an array input whose length is not 2, parse yields no node and
reports exactly the arity message; the message contains the found
argument count `arrayLength(value) - 1` (computed, as in the source, in
`size_t` arithmetic), and for a 3-element array the count shown is
`"2"`. -/
theorem c5_arity_error (toGeoJSON : Convertible → Option GeoJSON × String)
    (xs : List Convertible) (h : xs.length ≠ 2) :
    Within.parse toGeoJSON (Convertible.array xs) = (none, [arityMessage xs.length]) ∧
    (∃ pre post, arityMessage xs.length =
      pre ++ Nat.repr (sizeTSubOne xs.length) ++ post) ∧
    (xs.length = 3 → ∃ pre post, arityMessage xs.length = pre ++ "2" ++ post) := by
  refine ⟨?_, ⟨_, _, rfl⟩, ?_⟩
  · unfold Within.parse
    simp [isArray, arrayLength, h]
  · intro h3
    rw [h3]
    exact ⟨"\x27Within\x27 expression requires exactly one argument, but found ",
      " instead.", rfl⟩

/-- Witness for C5 at a 3-element array: parse fails with the arity
message, whose found count reads `"2"`. -/
theorem c5_arity_error_witness :
    Within.parse (fun _ => (none, ""))
      (Convertible.array [Convertible.scalar, Convertible.scalar, Convertible.scalar]) =
        (none, [arityMessage 3]) ∧
    (∃ pre post, arityMessage 3 = pre ++ "2" ++ post) :=
  ⟨(c5_arity_error (fun _ => (none, ""))
      [Convertible.scalar, Convertible.scalar, Convertible.scalar] (by decide)).1,
   (c5_arity_error (fun _ => (none, ""))
      [Convertible.scalar, Convertible.scalar, Convertible.scalar] (by decide)).2.2 rfl⟩

/-- C6: for a 2-element array, parse fails with exactly the fixed schema
message when the second element is not an object whose `"type"` member is
the string `"Polygon"`, and returns a node owning the converted GeoJSON
(with no diagnostics) when it is and the conversion succeeds. -/
theorem c6_schema_gate (toGeoJSON : Convertible → Option GeoJSON × String)
    (x0 v : Convertible) :
    (¬ polygonTyped v →
      Within.parse toGeoJSON (Convertible.array [x0, v]) =
        (none, [schemaErrorMessage])) ∧
    (∀ gj : GeoJSON, polygonTyped v → toGeoJSON v = (some gj, "") →
      Within.parse toGeoJSON (Convertible.array [x0, v]) = (some ⟨gj⟩, [])) := by
  constructor
  · intro hnp
    unfold Within.parse
    simp [isArray, arrayLength, arrayMember, parseValue_not_polygon toGeoJSON v hnp]
  · intro gj hp hconv
    unfold Within.parse
    simp [isArray, arrayLength, arrayMember,
      parseValue_polygon_success toGeoJSON v gj hp hconv]

/-- Witness for C6: a string second element fails with the schema message,
and an object with `"type": "Polygon"` whose conversion succeeds parses
into a node owning the converted value. -/
theorem c6_schema_gate_witness :
    Within.parse (fun _ => (none, ""))
      (Convertible.array [Convertible.str "within", Convertible.str "Polygon"]) =
        (none, [schemaErrorMessage]) ∧
    Within.parse
      (fun _ => (some (GeoJSON.geometry (Geometry.polygon [[⟨0, 0⟩, ⟨4, 0⟩, ⟨4, 4⟩, ⟨0, 4⟩, ⟨0, 0⟩]])), ""))
      (Convertible.array [Convertible.str "within",
        Convertible.object [("type", Convertible.str "Polygon")]]) =
      (some ⟨GeoJSON.geometry (Geometry.polygon [[⟨0, 0⟩, ⟨4, 0⟩, ⟨4, 4⟩, ⟨0, 4⟩, ⟨0, 0⟩]])⟩, []) :=
  ⟨(c6_schema_gate (fun _ => (none, "")) (Convertible.str "within")
      (Convertible.str "Polygon")).1 (by simp [polygonTyped, isObject]),
   (c6_schema_gate
      (fun _ => (some (GeoJSON.geometry (Geometry.polygon [[⟨0, 0⟩, ⟨4, 0⟩, ⟨4, 4⟩, ⟨0, 4⟩, ⟨0, 0⟩]])), ""))
      (Convertible.str "within")
      (Convertible.object [("type", Convertible.str "Polygon")])).2
     (GeoJSON.geometry (Geometry.polygon [[⟨0, 0⟩, ⟨4, 0⟩, ⟨4, 4⟩, ⟨0, 4⟩, ⟨0, 0⟩]]))
     ⟨rfl, Convertible.str "Polygon", rfl, rfl⟩ rfl⟩

/-- C7 counterexample: with a converter that fails on a polygon-typed
object, parse reports the converter's message AND the fixed schema
message — two diagnostics, not only the converter's message as the claim
states. -/
theorem c7_counterexample :
    Within.parse (fun _ => (none, "GeoJSON conversion failed"))
      (Convertible.array [Convertible.str "within",
        Convertible.object [("type", Convertible.str "Polygon")]]) =
      (none, ["GeoJSON conversion failed", schemaErrorMessage]) ∧
    ["GeoJSON conversion failed", schemaErrorMessage] ≠
      ["GeoJSON conversion failed"] :=
  ⟨rfl, by decide⟩

/-- C7 amended: when the second element is polygon-typed but the GeoJSON
conversion fails, parse aborts construction (no node) and reports the
converter's message verbatim, followed additionally by the fixed schema
message. -/
theorem c7_conversion_error_propagation (toGeoJSON : Convertible → Option GeoJSON × String)
    (x0 v : Convertible) (gjq : Option GeoJSON) (emsg : String)
    (hp : polygonTyped v) (hconv : toGeoJSON v = (gjq, emsg))
    (hfail : gjq = none ∨ emsg ≠ "") :
    Within.parse toGeoJSON (Convertible.array [x0, v]) =
      (none, [emsg, schemaErrorMessage]) := by
  unfold Within.parse
  simp [isArray, arrayLength, arrayMember,
    parseValue_polygon_failure toGeoJSON v gjq emsg hp hconv hfail]

/-- Witness for the amended C7: a failing converter's message is reported
first, then the schema message. -/
theorem c7_conversion_error_propagation_witness :
    Within.parse (fun _ => (none, "bad ring"))
      (Convertible.array [Convertible.str "within",
        Convertible.object [("type", Convertible.str "Polygon")]]) =
      (none, ["bad ring", schemaErrorMessage]) :=
  c7_conversion_error_propagation (fun _ => (none, "bad ring"))
    (Convertible.str "within") (Convertible.object [("type", Convertible.str "Polygon")])
    none "bad ring" ⟨rfl, Convertible.str "Polygon", rfl, rfl⟩ rfl (Or.inl rfl)

/-- C8: re-parsing the serialized form always fails: `serialize` emits the
stored GeoJSON as a string, while `parse` admits only an object with
`"type": "Polygon"`, so `Parse(Serialize(node))` yields no node (and the
schema diagnostic) for every node, converter and stringifier — there is
no re-parsed node whose evaluation could match the original's. -/
theorem c8_serialize_reparse_fails (toGeoJSON : Convertible → Option GeoJSON × String)
    (stringify : GeoJSON → String) (node : Within) :
    Within.parse toGeoJSON (Within.serialize stringify node) =
      (none, [schemaErrorMessage]) := by
  have h := parseValue_not_polygon toGeoJSON
    (Convertible.str (stringify node.geoJSONSource)) (by simp [polygonTyped, isObject])
  unfold Within.serialize Within.parse
  simp [isArray, arrayLength, arrayMember, h]

/-- C10: a non-array input makes parse fail silently — no node and no
diagnostic — while every failing array input reports at least one
diagnostic. -/
theorem c10_nonarray_silent_failure (toGeoJSON : Convertible → Option GeoJSON × String)
    (v : Convertible) :
    (isArray v = false → Within.parse toGeoJSON v = (none, [])) ∧
    (∀ xs : List Convertible,
      (Within.parse toGeoJSON (Convertible.array xs)).1 = none →
      (Within.parse toGeoJSON (Convertible.array xs)).2 ≠ []) := by
  constructor
  · intro h
    unfold Within.parse
    simp [h]
  · intro xs hnone
    by_cases hlen : xs.length = 2
    · have hform : Within.parse toGeoJSON (Convertible.array xs) =
          (match parseValue toGeoJSON (arrayMember (Convertible.array xs) 1) with
           | (some parsedValue, errs) => (some ⟨parsedValue⟩, errs)
           | (none, errs) => (none, errs)) := by
        unfold Within.parse
        simp [isArray, arrayLength, hlen]
      rcases hpv : parseValue toGeoJSON (arrayMember (Convertible.array xs) 1) with ⟨gjq, errs⟩
      cases gjq with
      | some gj =>
        rw [hform, hpv] at hnone
        simp at hnone
      | none =>
        rw [hform, hpv]
        exact parseValue_none_reports toGeoJSON (arrayMember (Convertible.array xs) 1) errs hpv
    · unfold Within.parse
      simp [isArray, arrayLength, hlen, arityMessage]

/-- Witness for C10: a bare string input fails with no diagnostics. -/
theorem c10_nonarray_silent_failure_witness :
    Within.parse (fun _ => (none, "")) (Convertible.str "within") = (none, []) :=
  (c10_nonarray_silent_failure (fun _ => (none, "")) (Convertible.str "within")).1 rfl

end Within.Model
